import Mathlib

/-!
Shallow embedding of the QAmqpCpp sources:
  * `src/src/AmpqCpp/include/amqpcpp/deferredconsumer.h` (class `DeferredConsumer`)
  * `src/src/QMqManager/QRabbitmqMgr.cpp` (class `QRabbitmqMgr`)

Callbacks are modelled as opaque identifiers (`Cb := Nat`); an invocation of a
callback is recorded as an event in a trace, so that "callback X was invoked
with argument Y" becomes list membership in that trace.  Methods that in C++
mutate `this` become functions from the record to an updated record, paired
with the trace of callback invocations (or emitted Qt signals) performed
during the call.
-/

namespace AmqpModel

/-- Identity of a stored std::function callback. -/
abbrev Cb := Nat

/-- One callback invocation performed by the deferred-consumer machinery,
tagged with which callback slot fired and the arguments it received. -/
inductive CbEvent
  | consumeInvoke (cb : Cb) (tag : String)
  | cancelInvoke (cb : Cb) (tag : String)
  | messageInvoke (cb : Cb) (body : List Nat) (deliveryTag : Nat) (redelivered : Bool)
  | errorInvoke (cb : Cb) (reason : String)
  deriving DecidableEq, Repr

/-- State of the underlying Deferred.  The base class `Deferred`
(`deferred.h`) is not under src/; per the spec its states are
`Pending -> (Succeeded | Failed)`, terminal thereafter. -/
inductive DefState
  | pending
  | succeeded
  | stateFailed
  deriving DecidableEq, Repr

/-- The `DeferredConsumer` object.  The slots `_consumeCallback` and
`_cancelCallback` are declared in `deferredconsumer.h` itself; the slots
`_messageCallback`, `_startCallback`, `_sizeCallback`, `_headerCallback`,
`_dataCallback`, `_deliveredCallback` are inherited from
`DeferredExtReceiver` but assigned directly by the methods in this header.
The `state` field and the `errorCallback` slot belong to the base `Deferred`
(not under src/) and are modelled from the spec's description of the
Deferred state machine. -/
structure DeferredConsumer where
  state : DefState
  consumeCallback : Option Cb
  cancelCallback : Option Cb
  messageCallback : Option Cb
  startCallback : Option Cb
  sizeCallback : Option Cb
  headerCallback : Option Cb
  dataCallback : Option Cb
  deliveredCallback : Option Cb
  errorCallback : Option Cb
  deriving DecidableEq, Repr

namespace DeferredConsumer

/-- Constructor `DeferredConsumer(ChannelImpl *channel, bool failed)`:
all callback slots start empty; the `failed` flag selects the initial
Deferred state (failed objects are constructed already terminal). -/
def make (failedFlag : Bool) : DeferredConsumer :=
  { state := if failedFlag then DefState.stateFailed else DefState.pending
    consumeCallback := none
    cancelCallback := none
    messageCallback := none
    startCallback := none
    sizeCallback := none
    headerCallback := none
    dataCallback := none
    deliveredCallback := none
    errorCallback := none }

/-- Source `DeferredConsumer &onSuccess(ConsumeCallback&& callback)`
(deferredconsumer.h:107-114): the body only stores the callback and returns
`*this`; the returned trace is the list of callback invocations performed
during the registration call, which the source shows to be empty. -/
def onSuccessConsume (d : DeferredConsumer) (cb : Cb) : DeferredConsumer × List CbEvent :=
  ({ d with consumeCallback := some cb }, [])

/-- Source `DeferredConsumer &onReceived(MessageCallback&&)` (deferredconsumer.h:137-144):
stores into `_messageCallback`. -/
def onReceived (d : DeferredConsumer) (cb : Cb) : DeferredConsumer :=
  { d with messageCallback := some cb }

/-- Source `DeferredConsumer &onMessage(MessageCallback&&)` (deferredconsumer.h:151-158):
stores into `_messageCallback`. -/
def onMessage (d : DeferredConsumer) (cb : Cb) : DeferredConsumer :=
  { d with messageCallback := some cb }

/-- Source `DeferredConsumer &onCancelled(CancelCallback&&)` (deferredconsumer.h:310-317):
stores into `_cancelCallback`. -/
def onCancelled (d : DeferredConsumer) (cb : Cb) : DeferredConsumer :=
  { d with cancelCallback := some cb }

/-- Source `void reportCancelled(const std::string &name)` (deferredconsumer.h:65-69):
`if (_cancelCallback) _cancelCallback(name);` — invokes the cancel callback
with the consumer tag when one is stored, and nothing else. -/
def reportCancelled (d : DeferredConsumer) (tag : String) : List CbEvent :=
  match d.cancelCallback with
  | some cb => [CbEvent.cancelInvoke cb tag]
  | none => []

/-- Modelled from the spec: the body of
`DeferredConsumer::reportSuccess(const std::string &name)` is not under src/
(deferredconsumer.h:59 only declares it).  Per the spec, `onSuccess`
"additionally receives the server-assigned consumer-tag once consumption
starts", and success is a terminal Deferred state: reportSuccess marks the
deferred succeeded and invokes the stored consume callback with the tag. -/
def reportSuccess (d : DeferredConsumer) (tag : String) : DeferredConsumer × List CbEvent :=
  ({ d with state := DefState.succeeded },
   match d.consumeCallback with
   | some cb => [CbEvent.consumeInvoke cb tag]
   | none => [])

/-- One server notification delivered to a consumer over its lifetime. -/
inductive Notif
  | success (tag : String)
  | cancelled (tag : String)
  | message (body : List Nat) (deliveryTag : Nat) (redelivered : Bool)
  | opError (reason : String)
  deriving DecidableEq, Repr

/-- Modelled from the spec: the channel-side dispatch that routes server
notifications to a consumer (`ChannelImpl` / `ConsumedMessage`, not under
src/).  consume-ok runs `reportSuccess`; a server-side basic.cancel runs
`reportCancelled` (whose body IS under src/); a completed delivery invokes
the stored message callback; an operation error fails the deferred and
invokes the stored error callback. -/
def dispatch (d : DeferredConsumer) : Notif → DeferredConsumer × List CbEvent
  | Notif.success tag => d.reportSuccess tag
  | Notif.cancelled tag => (d, d.reportCancelled tag)
  | Notif.message body deliveryTag redelivered =>
      (d, match d.messageCallback with
          | some cb => [CbEvent.messageInvoke cb body deliveryTag redelivered]
          | none => [])
  | Notif.opError reason =>
      ({ d with state := DefState.stateFailed },
       match d.errorCallback with
       | some cb => [CbEvent.errorInvoke cb reason]
       | none => [])

/-- The callback-invocation trace produced by a whole lifetime of
notifications, dispatched in order. -/
def run (d : DeferredConsumer) : List Notif → List CbEvent
  | [] => []
  | n :: ns =>
      let p := d.dispatch n
      p.2 ++ p.1.run ns

end DeferredConsumer

/-- Recognizer for cancel-callback invocations. -/
def isCancelInvoke : CbEvent → Bool
  | CbEvent.cancelInvoke _ _ => true
  | _ => false

/-- Recognizer for error-callback invocations. -/
def isErrorInvoke : CbEvent → Bool
  | CbEvent.errorInvoke _ _ => true
  | _ => false

/-- Recognizer for server-cancel notifications. -/
def isCancelledNotif : DeferredConsumer.Notif → Bool
  | DeferredConsumer.Notif.cancelled _ => true
  | _ => false

/-! ### The Qt wrapper `QRabbitmqMgr` (QRabbitmqMgr.cpp) -/

/-- Modelled from the spec: the enum `MqRoles` is declared in `QRabbitmqMgr.h`,
which is not under src/.  The .cpp tests role membership bitwise
(`m_role & MqPublisher`, `m_role & MqConsumer`) and `OnStatusChange(false)`
assigns `MqRoles::MqNone` to disable the role, so the roles are bit flags
with `MqNone` the empty set. -/
def MqNone : Nat := 0

/-- Publisher role bit (see `MqNone`). -/
def MqPublisher : Nat := 1

/-- Consumer role bit (see `MqNone`). -/
def MqConsumer : Nat := 2

/-- The configuration record `MqInfo` (declared in the header, fields taken
from their uses in QRabbitmqMgr.cpp). -/
structure MqInfo where
  ip : String
  port : Nat
  loginName : String
  loginPwd : String
  vhost : String
  exchangeName : String
  exchangeType : String
  queueName : String
  routingKey : String
  bindingKey : String
  deriving DecidableEq, Repr

/-- Observable state of the `AMQP::Channel` the wrapper holds a pointer to:
only its usability matters to the wrapper code under verification. -/
structure ChannelSt where
  usable : Bool
  deriving DecidableEq, Repr

/-- Observable state of the `AMQP::Connection` the wrapper holds. -/
structure ConnSt where
  usable : Bool
  deriving DecidableEq, Repr

/-- The fields of `QRabbitmqMgr` that the verified methods read or write.
`channel = none` models a null `m_channel`; likewise for `connection`. -/
structure MgrState where
  mqInfo : MqInfo
  role : Nat
  errMessag : String
  mqConnErrIndex : Nat
  channel : Option ChannelSt
  connection : Option ConnSt
  heartbeatActive : Bool
  deriving DecidableEq, Repr

/-- Externally visible effects of the wrapper methods: Qt signals emitted and
AMQP operations sent on the channel/connection. -/
inductive MEvent
  | sigMqConnectError
  | sigRecvedDataReady (data : List Nat)
  | channelCloseSent
  | connectionCloseSent
  | publishSent (exchange : String) (routingKey : String) (msg : String)
  | declareQueueSent (queue : String)
  | bindQueueSent (exchange : String) (queue : String) (bindingKey : String)
  | consumeStarted (queue : String)
  | ackSent (deliveryTag : Nat)
  deriving DecidableEq, Repr

/-- A delivered `AMQP::Message`: the wrapper only reads `body()`/`bodySize()`,
modelled as the byte list `body`. -/
structure Message where
  body : List Nat
  deriving DecidableEq, Repr

namespace QRabbitmqMgr

/-- Source `bool CloseMqChannel()` (QRabbitmqMgr.cpp:227-241): if `m_channel` is
non-null and usable, send `channel.close` (which starts closing the channel,
so it stops being usable); otherwise do nothing.  Returns true (the catch
branch is unreachable in the pure model). -/
def CloseMqChannel (s : MgrState) : MgrState × List MEvent × Bool :=
  match s.channel with
  | some c =>
      if c.usable then
        ({ s with channel := some ⟨false⟩ }, [MEvent.channelCloseSent], true)
      else (s, [], true)
  | none => (s, [], true)

/-- Source `bool CloseMqConnection()` (QRabbitmqMgr.cpp:243-260): if `m_connection`
is non-null and usable, send `connection.close` (the connection starts
closing, so `usable()` becomes false). -/
def CloseMqConnection (s : MgrState) : MgrState × List MEvent × Bool :=
  match s.connection with
  | some c =>
      if c.usable then
        ({ s with connection := some ⟨false⟩ }, [MEvent.connectionCloseSent], true)
      else (s, [], true)
  | none => (s, [], true)

/-- Source `void OnStatusChange(const bool isOk)` (QRabbitmqMgr.cpp:130-144):
on success, reset the error counter; on failure, bump the counter, emit
`sigMqConnectError`, close the channel, and set the role to `MqNone`. -/
def OnStatusChange (s : MgrState) (isOk : Bool) : MgrState × List MEvent :=
  if isOk then ({ s with mqConnErrIndex := 0 }, [])
  else
    let s1 := { s with mqConnErrIndex := s.mqConnErrIndex + 1 }
    let r := CloseMqChannel s1
    ({ r.1 with role := MqNone }, MEvent.sigMqConnectError :: r.2.1)

/-- Source `void ReleaseMqInstance()` (QRabbitmqMgr.cpp:95-108): close the channel,
close the connection, stop the heartbeat timer. -/
def ReleaseMqInstance (s : MgrState) : MgrState × List MEvent :=
  let r1 := CloseMqChannel s
  let r2 := CloseMqConnection r1.1
  ({ r2.1 with heartbeatActive := false }, r1.2.1 ++ r2.2.1)

/-- Source `void OnTcpErrHandle(const QString &err)` (QRabbitmqMgr.cpp:193-200):
store the error message, emit `sigMqConnectError`, run the failure path
`OnStatusChange(false)`, then release the MQ instance. -/
def OnTcpErrHandle (s : MgrState) (err : String) : MgrState × List MEvent :=
  let s1 := { s with errMessag := err }
  let r2 := OnStatusChange s1 false
  let r3 := ReleaseMqInstance r2.1
  (r3.1, MEvent.sigMqConnectError :: (r2.2 ++ r3.2))

/-- Source `bool PublishMsg(const QString &msg)` (QRabbitmqMgr.cpp:70-93): fail if
the role lacks the publisher bit, fail if `m_channel` is null, otherwise
publish to the exchange with the routing key (queue name when the configured
routing key is empty). -/
def PublishMsg (s : MgrState) (msg : String) : MgrState × List MEvent × Bool :=
  if s.role &&& MqPublisher = 0 then
    ({ s with errMessag := "Publish Messsage: MqRole is not Publisher" }, [], false)
  else
    match s.channel with
    | none => ({ s with errMessag := "Publish Messsage: channelPub is null" }, [], false)
    | some _ =>
        let realRouteKey :=
          if s.mqInfo.routingKey.isEmpty then s.mqInfo.queueName else s.mqInfo.routingKey
        (s, [MEvent.publishSent s.mqInfo.exchangeName realRouteKey msg], true)

/-- Source `bool StartConsumeMsg()` (QRabbitmqMgr.cpp:332-354): fail if the role
lacks the consumer bit, fail if `m_channel` is null, otherwise start a
consumer on the configured queue. -/
def StartConsumeMsg (s : MgrState) : MgrState × List MEvent × Bool :=
  if s.role &&& MqConsumer = 0 then
    ({ s with errMessag := "Consume Data Failed: MqRole is not Consumer" }, [], false)
  else
    match s.channel with
    | none => ({ s with errMessag := "Consume Data Failed: channel is null" }, [], false)
    | some _ => (s, [MEvent.consumeStarted s.mqInfo.queueName], true)

/-- Source `bool CreateMqQueue(const QString &queueName)` (QRabbitmqMgr.cpp:287-298):
calls `m_channel->declareQueue(...)` with no validation of the name.
Dereferencing a null `m_channel` is undefined behavior (not a C++ exception),
modelled as `none`; with a channel present the declare is sent and the call
returns true. -/
def CreateMqQueue (s : MgrState) (queueName : String) :
    Option (MgrState × List MEvent × Bool) :=
  match s.channel with
  | none => none
  | some _ => some (s, [MEvent.declareQueueSent queueName], true)

/-- Source `bool BindQueue(const QString&, const QString&, const QString&)`
(QRabbitmqMgr.cpp:300-318): an empty exchange or queue name is rejected up
front with an error message, before `m_channel` is touched; otherwise the
bind is sent with the binding key defaulting to the queue name. -/
def BindQueue (s : MgrState) (queueName exchangeName bindingKey : String) :
    Option (MgrState × List MEvent × Bool) :=
  if exchangeName.isEmpty || queueName.isEmpty then
    some ({ s with errMessag := "ExchangeName or QueueName is empty." }, [], false)
  else
    match s.channel with
    | none => none
    | some _ =>
        let realBindKey := if bindingKey.isEmpty then queueName else bindingKey
        some (s, [MEvent.bindQueueSent exchangeName queueName realBindKey], true)

/-- Source `void OnConsumeRecved(const AMQP::Message&, uint64_t, bool)`
(QRabbitmqMgr.cpp:419-428): emit the message body through
`sigRecvedDataReady`, then acknowledge the delivery tag on the channel. -/
def OnConsumeRecved (s : MgrState) (message : Message) (deliveryTag : Nat)
    (_redelivered : Bool) : MgrState × List MEvent :=
  (s, [MEvent.sigRecvedDataReady message.body, MEvent.ackSent deliveryTag])

end QRabbitmqMgr

/-- Events a full shutdown path may produce: the error signal and the two
close operations, and nothing else (no publish, no reconnect attempt). -/
def isShutdownEv : MEvent → Bool
  | MEvent.sigMqConnectError => true
  | MEvent.channelCloseSent => true
  | MEvent.connectionCloseSent => true
  | _ => false

/-- Usability of a possibly-null channel pointer. -/
def channelUsable : Option ChannelSt → Bool
  | some c => c.usable
  | none => false

/-- Usability of a possibly-null connection pointer. -/
def connectionUsable : Option ConnSt → Bool
  | some c => c.usable
  | none => false

/-! ### The TCP-byte parsing slot `OnParseTcpMessage` (QRabbitmqMgr.cpp:151-173)

The `AMQP::Connection` object it drives lives outside src/, so the loop is
embedded parametrically over any connection model exposing the three members
the loop calls: `usable()`, `expected()` and `parse(buf, size)` (which
returns the number of bytes consumed). -/

/-- Interface of `AMQP::Connection` as used by `OnParseTcpMessage`. -/
structure ConnModel (σ : Type) where
  usable : σ → Bool
  expected : σ → Nat
  parse : σ → List Nat → σ × Nat

/-- Source `QByteArray::mid(pos, len)`: `len` bytes starting at position `pos`,
clamped to the array's end. -/
def byteMid (msg : List Nat) (pos len : Nat) : List Nat :=
  (msg.drop pos).take len

/-- The `while (data_size - parsed_bytes >= expected_bytes)` loop of
`OnParseTcpMessage` (QRabbitmqMgr.cpp:161-165), transcribed verbatim: each
iteration slices `msg.mid(parsed_bytes, parsed_bytes + expected_bytes)` —
note the second argument of `mid` is a LENGTH — hands the slice to
`parse`, advances `parsed_bytes` by the count parse consumed, and re-reads
`expected()`.  The subtraction is `Nat` subtraction, which agrees with the
C++ unsigned arithmetic while `parsed ≤ msg.length`.  The C++ loop has no
iteration bound (it spins forever if `parse` keeps consuming 0 of at least
`expected` available bytes); `fuel` caps the iterations so the function is
total, and every terminating C++ run with at most `fuel` iterations is
reproduced exactly.  Besides the final connection state and `parsed_bytes`,
the trace of `(expected_bytes, slice)` pairs handed to `parse` is returned. -/
def parseLoop {σ : Type} (cm : ConnModel σ) (msg : List Nat) :
    Nat → σ → Nat → Nat → σ × Nat × List (Nat × List Nat)
  | 0, c, parsed, _ => (c, parsed, [])
  | fuel + 1, c, parsed, expectedBytes =>
      if expectedBytes ≤ msg.length - parsed then
        let tmpBuf := byteMid msg parsed (parsed + expectedBytes)
        let pr := cm.parse c tmpBuf
        let rest := parseLoop cm msg fuel pr.1 (parsed + pr.2) (cm.expected pr.1)
        (rest.1, rest.2.1, (expectedBytes, tmpBuf) :: rest.2.2)
      else (c, parsed, [])

/-- Source `void OnParseTcpMessage(const QByteArray &msg)` (QRabbitmqMgr.cpp:151-173):
return immediately when `m_connection` is null or not usable; otherwise run
the parsing loop from `parsed_bytes = 0` with the connection's current
`expected()`.  The wrapper state visible to this slot is the connection and
`m_errMessag` (only touched by the catch branch, unreachable in the pure
model); result also carries the final `parsed_bytes` and the trace of
slices handed to `parse`. -/
def OnParseTcpMessage {σ : Type} (cm : ConnModel σ) (conn : Option σ)
    (errMessag : String) (msg : List Nat) :
    Option σ × String × Nat × List (Nat × List Nat) :=
  match conn with
  | none => (none, errMessag, 0, [])
  | some c =>
      if cm.usable c then
        let r := parseLoop cm msg (msg.length + 1) c 0 (cm.expected c)
        (some r.1, errMessag, r.2.1, r.2.2)
      else (some c, errMessag, 0, [])

/-- Usability of a possibly-null connection, for an abstract connection
model: the guard `!m_connection || !m_connection->usable()`. -/
def connLiveB {σ : Type} (cm : ConnModel σ) : Option σ → Bool
  | none => false
  | some c => cm.usable c

/-- A concrete connection for exercising the loop: a stream of consecutive
8-byte frames.  `expected()` is always 8 and `parse` consumes every complete
8-byte frame in the buffer it is given. -/
def frame8CM : ConnModel Unit where
  usable := fun _ => true
  expected := fun _ => 8
  parse := fun _ buf => ((), 8 * (buf.length / 8))

/-- A connection that is not usable, for exercising the guard of
`OnParseTcpMessage`. -/
def deadCM : ConnModel Unit where
  usable := fun _ => false
  expected := fun _ => 8
  parse := fun c _ => (c, 0)

/-- A sample configuration, for concrete witnesses. -/
def sampleInfo : MqInfo :=
  { ip := "127.0.0.1", port := 5672, loginName := "guest", loginPwd := "guest"
    vhost := "/", exchangeName := "ex", exchangeType := "direct"
    queueName := "q", routingKey := "", bindingKey := "" }

/-- A sample wrapper state with a usable channel and connection, for
concrete witnesses. -/
def sampleState : MgrState :=
  { mqInfo := sampleInfo, role := MqPublisher + MqConsumer, errMessag := ""
    mqConnErrIndex := 0, channel := some ⟨true⟩, connection := some ⟨true⟩
    heartbeatActive := true }

/- ======================================================================
   Theorems
   ====================================================================== -/

/-- Per-notification bound: dispatching one notification produces at most one
cancel-callback invocation, and only a `cancelled` notification can produce
one. -/
theorem dispatch_cancel_count (d : DeferredConsumer) (n : DeferredConsumer.Notif) :
    ((d.dispatch n).2).countP isCancelInvoke ≤ (if isCancelledNotif n then 1 else 0) := by
  cases n with
  | success tag =>
      rcases hc : d.consumeCallback with _ | cb <;>
        simp [DeferredConsumer.dispatch, DeferredConsumer.reportSuccess, hc,
          isCancelledNotif, isCancelInvoke]
  | cancelled tag =>
      rcases hc : d.cancelCallback with _ | cb <;>
        simp [DeferredConsumer.dispatch, DeferredConsumer.reportCancelled, hc,
          isCancelledNotif, isCancelInvoke]
  | message body deliveryTag redelivered =>
      rcases hc : d.messageCallback with _ | cb <;>
        simp [DeferredConsumer.dispatch, hc, isCancelledNotif, isCancelInvoke]
  | opError reason =>
      rcases hc : d.errorCallback with _ | cb <;>
        simp [DeferredConsumer.dispatch, hc, isCancelledNotif, isCancelInvoke]

/-- Lifetime bound: the cancel callback fires at most as often as `cancelled`
notifications arrive. -/
theorem run_cancel_count_le (d : DeferredConsumer) (ns : List DeferredConsumer.Notif) :
    (d.run ns).countP isCancelInvoke ≤ ns.countP isCancelledNotif := by
  induction ns generalizing d with
  | nil => simp [DeferredConsumer.run]
  | cons n ns ih =>
      have h2 := ih (d.dispatch n).1
      rw [DeferredConsumer.run, List.countP_append, List.countP_cons]
      rcases n with tag | tag | ⟨body, dt, rd⟩ | reason
      · rcases hc : d.consumeCallback with _ | cb <;>
          simp [DeferredConsumer.dispatch, DeferredConsumer.reportSuccess, hc,
            isCancelledNotif, isCancelInvoke] at h2 ⊢ <;> omega
      · rcases hc : d.cancelCallback with _ | cb <;>
          simp [DeferredConsumer.dispatch, DeferredConsumer.reportCancelled, hc,
            isCancelledNotif, isCancelInvoke] at h2 ⊢ <;> omega
      · rcases hc : d.messageCallback with _ | cb <;>
          simp [DeferredConsumer.dispatch, hc, isCancelledNotif, isCancelInvoke] at h2 ⊢ <;>
          omega
      · rcases hc : d.errorCallback with _ | cb <;>
          simp [DeferredConsumer.dispatch, hc, isCancelledNotif, isCancelInvoke] at h2 ⊢ <;>
          omega

/-- Claim C1, counterexample: a DeferredConsumer that is already terminal
(Succeeded — a consume-ok has been reported) when a ConsumeCallback is
registered through `onSuccess(ConsumeCallback&&)` performs NO callback
invocation during the registration call (the trace is empty, not a single
invocation with the stored result): the method body only stores the
callback. -/
theorem c1_counterexample :
    (((DeferredConsumer.make false).reportSuccess "ctag-1").1).state = DefState.succeeded ∧
    ((((DeferredConsumer.make false).reportSuccess "ctag-1").1).onSuccessConsume 7).2 = [] ∧
    ((((DeferredConsumer.make false).reportSuccess "ctag-1").1).onSuccessConsume 7).2.length ≠ 1 :=
  ⟨rfl, rfl, by decide⟩

/-- Claim C1, amended: `DeferredConsumer::onSuccess(ConsumeCallback&&)` only
stores the callback and invokes nothing during registration, whatever the
deferred's state; the stored ConsumeCallback fires (with the server-assigned
consumer tag) only when `reportSuccess` runs. -/
theorem c1_consume_register_stores_only (d : DeferredConsumer) (cb : Cb) (tag : String) :
    d.onSuccessConsume cb = ({ d with consumeCallback := some cb }, []) ∧
    (((d.onSuccessConsume cb).1).reportSuccess tag).2 = [CbEvent.consumeInvoke cb tag] :=
  ⟨rfl, rfl⟩

/-- Claim C5: over a consumer lifetime that contains at most one server-side
cancellation notification, the callback registered via `onCancelled` is
invoked at most once; and a cancellation notification never produces an
error-callback invocation. -/
theorem c5_cancel_at_most_once (d : DeferredConsumer)
    (ns : List DeferredConsumer.Notif) (tag : String)
    (h : ns.countP isCancelledNotif ≤ 1) :
    (d.run ns).countP isCancelInvoke ≤ 1 ∧
    ((d.dispatch (DeferredConsumer.Notif.cancelled tag)).2).countP isErrorInvoke = 0 := by
  constructor
  · exact le_trans (run_cancel_count_le d ns) h
  · rcases hc : d.cancelCallback with _ | cb <;>
      simp [DeferredConsumer.dispatch, DeferredConsumer.reportCancelled, hc, isErrorInvoke]

/-- Witness for C5 at a concrete consumer and lifetime: one consume-ok, one
delivery, one server cancel. -/
theorem c5_witness :
    ([DeferredConsumer.Notif.success "ctag-1",
      DeferredConsumer.Notif.message [104, 105] 1 false,
      DeferredConsumer.Notif.cancelled "ctag-1"].countP isCancelledNotif ≤ 1) ∧
    ((((DeferredConsumer.make false).onCancelled 5).run
        [DeferredConsumer.Notif.success "ctag-1",
         DeferredConsumer.Notif.message [104, 105] 1 false,
         DeferredConsumer.Notif.cancelled "ctag-1"]).countP isCancelInvoke ≤ 1 ∧
      ((((DeferredConsumer.make false).onCancelled 5).dispatch
          (DeferredConsumer.Notif.cancelled "ctag-1")).2).countP isErrorInvoke = 0) :=
  ⟨by decide,
   c5_cancel_at_most_once ((DeferredConsumer.make false).onCancelled 5)
     [DeferredConsumer.Notif.success "ctag-1",
      DeferredConsumer.Notif.message [104, 105] 1 false,
      DeferredConsumer.Notif.cancelled "ctag-1"] "ctag-1" (by decide)⟩

/-- Claim C6: `onReceived` and `onMessage` store into the same single
message-callback slot, so registering through either leaves the consumer in
the same state; and for each event kind the slot holds at most one handler —
a later registration (through either name) replaces the earlier one. -/
theorem c6_onReceived_onMessage_interchangeable (d : DeferredConsumer) (cb cb2 : Cb) :
    d.onReceived cb = d.onMessage cb ∧
    (d.onReceived cb).onReceived cb2 = d.onReceived cb2 ∧
    (d.onReceived cb).onMessage cb2 = d.onMessage cb2 ∧
    (d.onMessage cb).onReceived cb2 = d.onReceived cb2 ∧
    (d.onCancelled cb).onCancelled cb2 = d.onCancelled cb2 :=
  ⟨rfl, rfl, rfl, rfl, rfl⟩

/-- Claim C9: when a ConsumeCallback has been registered via `onSuccess` and
consumption starts (`reportSuccess` runs with the server-assigned consumer
tag), that callback is invoked and receives that tag. -/
theorem c9_success_receives_consumer_tag (d : DeferredConsumer) (cb : Cb) (tag : String) :
    (((d.onSuccessConsume cb).1).reportSuccess tag).2 = [CbEvent.consumeInvoke cb tag] := rfl

/-- Claim C3: declaring a queue with an empty name and then binding it with
an empty queue name is a well-defined failure: `CreateMqQueue("")` completes
(no crash — the channel is present), and `BindQueue` with the empty queue
name returns false having recorded the error message, without reaching the
channel (so nothing is thrown or sent). -/
theorem c3_empty_queue_bind (s : MgrState) (c : ChannelSt) (h : s.channel = some c)
    (exchangeName bindingKey : String) :
    QRabbitmqMgr.CreateMqQueue s "" = some (s, [MEvent.declareQueueSent ""], true) ∧
    QRabbitmqMgr.BindQueue s "" exchangeName bindingKey =
      some ({ s with errMessag := "ExchangeName or QueueName is empty." }, [], false) := by
  constructor
  · simp [QRabbitmqMgr.CreateMqQueue, h]
  · have he : ("" : String).isEmpty = true := rfl
    simp [QRabbitmqMgr.BindQueue, he]

/-- Witness for C3 at a concrete state with a live channel. -/
theorem c3_witness :
    sampleState.channel = some ⟨true⟩ ∧
    (QRabbitmqMgr.CreateMqQueue sampleState "" =
        some (sampleState, [MEvent.declareQueueSent ""], true) ∧
      QRabbitmqMgr.BindQueue sampleState "" "ex" "" =
        some ({ sampleState with errMessag := "ExchangeName or QueueName is empty." },
          [], false)) :=
  ⟨rfl, c3_empty_queue_bind sampleState ⟨true⟩ rfl "ex" ""⟩

/-- Claim C4: once `OnStatusChange(false)` has run (which sets the role to
`MqNone`), `PublishMsg` and `StartConsumeMsg` each fail synchronously: they
return false with an error message recorded, emit no event, and change
nothing else. -/
theorem c4_fail_fast_after_failure (s : MgrState) (msg : String) :
    QRabbitmqMgr.PublishMsg ((QRabbitmqMgr.OnStatusChange s false).1) msg =
      ({ (QRabbitmqMgr.OnStatusChange s false).1 with
         errMessag := "Publish Messsage: MqRole is not Publisher" }, [], false) ∧
    QRabbitmqMgr.StartConsumeMsg ((QRabbitmqMgr.OnStatusChange s false).1) =
      ({ (QRabbitmqMgr.OnStatusChange s false).1 with
         errMessag := "Consume Data Failed: MqRole is not Consumer" }, [], false) := by
  have hrole : ((QRabbitmqMgr.OnStatusChange s false).1).role = MqNone := rfl
  have h1 : MqNone &&& MqPublisher = 0 := by decide
  have h2 : MqNone &&& MqConsumer = 0 := by decide
  constructor
  · simp [QRabbitmqMgr.PublishMsg, hrole, h1]
  · simp [QRabbitmqMgr.StartConsumeMsg, hrole, h2]

/-- Claim C7: `OnConsumeRecved` first emits the message body through
`sigRecvedDataReady` and then sends exactly one acknowledgement, with
exactly the delivery tag that accompanied the delivery; the wrapper state
is untouched. -/
theorem c7_emit_then_ack (s : MgrState) (m : Message) (deliveryTag : Nat)
    (redelivered : Bool) :
    QRabbitmqMgr.OnConsumeRecved s m deliveryTag redelivered =
      (s, [MEvent.sigRecvedDataReady m.body, MEvent.ackSent deliveryTag]) := rfl

/-- Claim C8: a transport failure reported through `OnTcpErrHandle` is
propagated as a connection-level failure: the error message is stored, the
connection-error signal is emitted, the channel ends up closed and the role
disabled, the connection is closed and the heartbeat stopped, and the only
effects produced are the error signal and the two close operations (no
retry, nothing else sent). -/
theorem c8_transport_failure_propagation (s : MgrState) (err : String) :
    ((QRabbitmqMgr.OnTcpErrHandle s err).1).errMessag = err ∧
    MEvent.sigMqConnectError ∈ (QRabbitmqMgr.OnTcpErrHandle s err).2 ∧
    ((QRabbitmqMgr.OnTcpErrHandle s err).1).role = MqNone ∧
    channelUsable ((QRabbitmqMgr.OnTcpErrHandle s err).1).channel = false ∧
    connectionUsable ((QRabbitmqMgr.OnTcpErrHandle s err).1).connection = false ∧
    ((QRabbitmqMgr.OnTcpErrHandle s err).1).heartbeatActive = false ∧
    (QRabbitmqMgr.OnTcpErrHandle s err).2.all isShutdownEv = true := by
  obtain ⟨info, role, em, idx, ch, conn, hb⟩ := s
  rcases ch with _ | ⟨cu⟩ <;> rcases conn with _ | ⟨nu⟩ <;>
    first
      | (rcases cu with _ | _ <;> rcases nu with _ | _ <;>
          simp [QRabbitmqMgr.OnTcpErrHandle, QRabbitmqMgr.OnStatusChange,
            QRabbitmqMgr.CloseMqChannel, QRabbitmqMgr.CloseMqConnection,
            QRabbitmqMgr.ReleaseMqInstance, channelUsable, connectionUsable,
            isShutdownEv, MqNone])
      | (rcases cu with _ | _ <;>
          simp [QRabbitmqMgr.OnTcpErrHandle, QRabbitmqMgr.OnStatusChange,
            QRabbitmqMgr.CloseMqChannel, QRabbitmqMgr.CloseMqConnection,
            QRabbitmqMgr.ReleaseMqInstance, channelUsable, connectionUsable,
            isShutdownEv, MqNone])
      | (rcases nu with _ | _ <;>
          simp [QRabbitmqMgr.OnTcpErrHandle, QRabbitmqMgr.OnStatusChange,
            QRabbitmqMgr.CloseMqChannel, QRabbitmqMgr.CloseMqConnection,
            QRabbitmqMgr.ReleaseMqInstance, channelUsable, connectionUsable,
            isShutdownEv, MqNone])
      | simp [QRabbitmqMgr.OnTcpErrHandle, QRabbitmqMgr.OnStatusChange,
          QRabbitmqMgr.CloseMqChannel, QRabbitmqMgr.CloseMqConnection,
          QRabbitmqMgr.ReleaseMqInstance, channelUsable, connectionUsable,
          isShutdownEv, MqNone]

/-- Claim C2 (code evaluated at the failing input): on a 24-byte buffer of
three 8-byte frames, against a connection whose `expected()` is 8 and whose
`parse` consumes every complete frame it is given, the loop's second
iteration hands `parse` a 16-byte slice although `expected()` was 8 — the
trace of (expected-at-call, slice-length) pairs is [(8, 8), (8, 16)], not
[(8, 8), (8, 8), (8, 8)], because the code passes
`parsed_bytes + expected_bytes` as the LENGTH argument of
`QByteArray::mid`. -/
theorem c2_oversized_slice :
    ((OnParseTcpMessage frame8CM (some ()) "" (List.range 24)).2.2.2).map
        (fun pr => (pr.1, pr.2.length)) = [(8, 8), (8, 16)] := by
  decide

/-- Claim C10: when the connection is null or not usable,
`OnParseTcpMessage` returns immediately: `parse` is never invoked (empty
trace, zero bytes parsed) and the wrapper state — connection and error
message — is unchanged; the buffer is simply discarded. -/
theorem c10_unusable_discards {σ : Type} (cm : ConnModel σ) (conn : Option σ)
    (errMessag : String) (msg : List Nat) (h : connLiveB cm conn = false) :
    OnParseTcpMessage cm conn errMessag msg = (conn, errMessag, 0, []) := by
  cases conn with
  | none => rfl
  | some c =>
      simp only [connLiveB] at h
      simp [OnParseTcpMessage, h]

/-- Witness for C10 at a concrete dead connection and buffer. -/
theorem c10_witness :
    connLiveB deadCM (some ()) = false ∧
    OnParseTcpMessage deadCM (some ()) "e" [1, 2, 3] = (some (), "e", 0, []) :=
  ⟨rfl, c10_unusable_discards deadCM (some ()) "e" [1, 2, 3] rfl⟩

end AmqpModel
